import Mathlib

/-!
Shallow embedding of the data-normalization and analysis pipeline of a
cycling FTP-test analysis application, together with proofs of the
spec-level claims about it.

Sources embedded (original TypeScript):
* `src/utils/csvParser.ts` — `parseCSV`, `parseTrainingPeaksCSV`;
* `src/utils/ftpAnalysis.ts` — `extractBestFTPSegment`, `calculateStats`,
  `analyzePacing`, `calculateHeartRateStats`, `PERFORMANCE_GRADES`,
  `calculateWattsPerKg`.

Modelling conventions, used throughout and noted again at the definitions
they affect:
* JavaScript `number` is modelled as `ℚ` (exact rational arithmetic).
  IEEE-754 double rounding error is out of scope of this model.
* JavaScript division by zero yields `NaN`/`±Infinity`; `ℚ` division by
  zero yields `0`.  Every place where this matters is marked with a
  comment, and claims touching such corners carry hypotheses that keep
  the input inside the faithful domain.
* `Math.round x` is `⌊x + 1/2⌋` (JavaScript rounds halves toward `+∞`),
  and `parseFloat(x.toFixed(d))` is `⌊10^d·x + 1/2⌋ / 10^d` (the
  ECMAScript `toFixed` spec picks the larger candidate on ties).
* `throw` caught at a parser boundary is `Option.none`; an uncaught
  `throw` in the analysis engine is `Except.error` with the thrown
  message.
* Irrational intermediate values (`Math.sqrt`, `Math.pow (·) 0.25`) are
  never stored: every field of every result record is a rounded value,
  and those roundings are computed exactly over `ℚ` by the integer
  fourth-root machinery below.
-/

/-! ### JavaScript numeric primitives -/

/-- `Math.round` for a rational argument: JavaScript rounds half toward `+∞`. -/
def jsRound (x : ℚ) : ℤ := ⌊x + 1/2⌋

/-- `parseFloat(x.toFixed(1))`: round to one decimal place, halves toward `+∞`. -/
def toFixed1 (x : ℚ) : ℚ := (jsRound (10 * x) : ℚ) / 10

/-- `parseFloat(x.toFixed(2))`: round to two decimal places, halves toward `+∞`. -/
def toFixed2 (x : ℚ) : ℚ := (jsRound (100 * x) : ℚ) / 100

/-- `arr.reduce((a, b) => a + b, 0)` on a rational array. -/
def listSum (l : List ℚ) : ℚ := l.foldl (· + ·) 0

/-- `Math.max(...arr)`. `none` models the `-Infinity` returned on an empty array. -/
def jsMax : List ℚ → Option ℚ
  | [] => none
  | x :: xs => some (xs.foldl max x)

/-- `Math.min(...arr)`. `none` models the `Infinity` returned on an empty array. -/
def jsMin : List ℚ → Option ℚ
  | [] => none
  | x :: xs => some (xs.foldl min x)

/-! ### Exact integer fourth roots

`calculateStats` stores `Math.round` images of the irrational values
`Math.sqrt variance` and `Math.pow avgFourth 0.25` (and scalings of the
latter by `0.95` and by `1000 / avg`).  All of these have the shape
`⌊c · q^(1/4) + 1/2⌋` for rationals `c` and `q ≥ 0` (a square root is the
fourth root of the square), which is computable exactly over the integers.
`isqrt` is a fuel-driven bisection so that the kernel can evaluate it on
concrete inputs. -/

/-- Bisection step for the integer square root.  Invariant: `lo² ≤ n < hi²`. -/
def isqrtAux (n : ℕ) : ℕ → ℕ → ℕ → ℕ
  | 0, lo, _ => lo
  | fuel + 1, lo, hi =>
    if hi ≤ lo + 1 then lo
    else
      let mid := (lo + hi) / 2
      if mid * mid ≤ n then isqrtAux n fuel mid hi else isqrtAux n fuel lo mid

/-- Integer square root: the unique `r` with `r² ≤ n < (r+1)²`. -/
def isqrt (n : ℕ) : ℕ := isqrtAux n (n + 1) 0 (n + 1)

/-- `⌊q^(1/4)⌋` for a rational `q ≥ 0` (junk on negative input, which the
embedding never produces). -/
def floor4Root (q : ℚ) : ℕ := isqrt (isqrt (q.num.toNat * q.den ^ 3)) / q.den

/-- `⌊c · q^(1/4)⌋` for rationals `c` (any sign) and `q ≥ 0`, using
`c · q^(1/4) = sign c · ((c^4·q)^(1/4))`. -/
def floorScaled4Root (c q : ℚ) : ℤ :=
  if 0 ≤ c then (floor4Root (c ^ 4 * q) : ℤ)
  else if ((floor4Root (c ^ 4 * q) : ℚ)) ^ 4 = c ^ 4 * q then
    -(floor4Root (c ^ 4 * q) : ℤ)
  else
    -(floor4Root (c ^ 4 * q) : ℤ) - 1

/-- `Math.round (c · q^(1/4))` for rationals `c` and `q ≥ 0`, via
`⌊x + 1/2⌋ = ⌊(⌊2x⌋ + 1) / 2⌋`. -/
def npRound (c q : ℚ) : ℤ := (floorScaled4Root (2 * c) q + 1) / 2

/-! ### Statistics engine (`calculateStats`) -/

/-- Result record of `calculateStats`.  In the source `variabilityIndex` is
the display string `vi.toFixed(3)` and `intensityFactor` is
`Number(vi.toFixed(3))`; both carry the same numeric content, kept here as
the exact 3-decimal rational.  `none` encodes the non-finite JavaScript
value these fields take when `average` is exactly `0` (`vi = np / avg`). -/
structure Stats where
  average : ℤ
  normalized : ℤ
  max : ℚ
  min : ℚ
  variabilityIndex : Option ℚ
  stdDev : ℤ
  classicFTP : ℤ
  normalizedFTP : ℤ
  intensityFactor : Option ℚ
  deriving Repr, DecidableEq

/-- `calculateStats` from `ftpAnalysis.ts`.  Throws (here: `Except.error`)
on an empty power array.  The 30-sample rolling normalized-power value
`Math.pow(avgFourth, 0.25)` is kept symbolically as a pair
`(coefficient, radicand)` denoting `coefficient · radicand^(1/4)`, so that
each rounded field can be computed exactly (`npRound`). -/
def calculateStats (powerData : List ℚ) : Except String Stats :=
  match powerData with
  | [] => .error "Power data cannot be empty"
  | p₀ :: rest =>
    let avg := listSum powerData / powerData.length
    let mx := rest.foldl max p₀
    let mn := rest.foldl min p₀
    -- Normalized Power: `let normalizedPower = avg; if (length >= 30) {...}`.
    -- `np = (c, q)` denotes the real number `c · q^(1/4)`.
    let np : ℚ × ℚ :=
      if 30 ≤ powerData.length then
        let rollingAvg30s :=
          (List.range (powerData.length - 29)).map
            (fun i => listSum ((powerData.drop i).take 30) / 30)
        if 0 < rollingAvg30s.length then
          let fourthPowers := rollingAvg30s.map (fun p => p ^ 4)
          let avgFourth := listSum fourthPowers / fourthPowers.length
          (1, avgFourth)
        else (avg, 1)
      else (avg, 1)
    -- Variability Index `vi = normalizedPower / avg`; its 3-decimal rounding
    -- is `npRound (1000·c/avg) q / 1000`.  JavaScript yields a non-finite vi
    -- when `avg = 0`; that corner is encoded as `none`.
    let vi : Option ℚ :=
      if avg = 0 then none else some ((npRound (1000 * np.1 / avg) np.2 : ℚ) / 1000)
    let variance := powerData.foldl (fun sum val => sum + (val - avg) ^ 2) 0 / powerData.length
    .ok {
      average := jsRound avg
      normalized := npRound np.1 np.2
      max := mx
      min := mn
      variabilityIndex := vi
      -- `Math.round (Math.sqrt variance)`: `√v = (v²)^(1/4)`.
      stdDev := npRound 1 (variance ^ 2)
      classicFTP := jsRound (avg * 0.95)
      normalizedFTP := npRound (np.1 * 0.95) np.2
      intensityFactor := vi
    }

/-! ### Pacing analyzer (`analyzePacing`) -/

/-- Severity tag of a coaching insight.  The source attaches display
strings (`message`, `recommendation`) to each insight; those are
presentation payload elided from the model, the tags and their order are
kept. -/
inductive InsightType where
  | error | warning | success | info
  deriving Repr, DecidableEq

/-- Result record of `analyzePacing`.  `fadePct` is stored in the source
as the display string `fadePct.toFixed(1)`; its numeric content is kept. -/
structure PacingAnalysis where
  score : ℚ
  fadePct : ℚ
  insights : List InsightType
  avgFirstQuarter : ℤ
  avgLastQuarter : ℤ
  wattsLost : ℤ
  strategy : String
  deriving Repr, DecidableEq

/-- `analyzePacing` from `ftpAnalysis.ts`.  The internal call to
`calculateStats` throws on empty input; the exception propagates
(`Except.error`).  When a quarter average is `0` (fewer than 4 samples, or
an all-zero quarter) the JavaScript `fadePct` is `NaN`/`±Infinity` where
this model produces `0`; the deductions taken can then differ, but every
deduction is drawn from the same fixed set in both readings, so bounds on
the score are unaffected. -/
def analyzePacing (powerData : List ℚ) : Except String PacingAnalysis :=
  let firstQuarter := powerData.take (powerData.length / 4)
  let lastQuarter := powerData.drop (powerData.length * 3 / 4)
  let firstHalf := powerData.take (powerData.length / 2)
  let secondHalf := powerData.drop (powerData.length / 2)
  let avgFirst := listSum firstQuarter / firstQuarter.length
  let avgLast := listSum lastQuarter / lastQuarter.length
  let avgFirstHalf := listSum firstHalf / firstHalf.length
  let avgSecondHalf := listSum secondHalf / secondHalf.length
  let fadePct := ((avgFirst - avgLast) / avgFirst) * 100
  -- `halfSplitPct` is computed but never used in the source.
  let _halfSplitPct := ((avgFirstHalf - avgSecondHalf) / avgFirstHalf) * 100
  match calculateStats powerData with
  | .error e => .error e
  | .ok stats =>
    let score1 : ℚ := 100
    let score2 :=
      if fadePct > 10 then score1 - 30
      else if fadePct > 5 then score1 - 15
      else if fadePct > 3 then score1 - 5
      else score1
    let score3 := if fadePct < -3 then score2 - 10 else score2
    let cvPct := ((stats.stdDev : ℚ) / (stats.average : ℚ)) * 100
    let score4 :=
      if cvPct > 10 then score3 - 20
      else if cvPct > 7 then score3 - 10
      else if cvPct > 5 then score3 - 5
      else score3
    let insights1 : List InsightType :=
      if fadePct > 10 then [.error]
      else if fadePct > 5 then [.warning]
      else if fadePct < -3 then [.info]
      else [.success]
    let insights2 :=
      if cvPct > 10 then insights1 ++ [.error]
      else if cvPct > 7 then insights1 ++ [.warning]
      else insights1
    let wattsLost : ℤ := if fadePct > 5 then jsRound ((fadePct - 3) * 0.5) else 0
    let insights3 := if fadePct > 5 then insights2 ++ [.info] else insights2
    let strategy :=
      if fadePct > 5 then "positive-split"
      else if fadePct < -3 then "negative-split"
      else "even"
    .ok {
      score := max 0 score4
      fadePct := toFixed1 fadePct
      insights := insights3
      avgFirstQuarter := jsRound avgFirst
      avgLastQuarter := jsRound avgLast
      wattsLost := wattsLost
      strategy := strategy
    }

/-! ### Heart-rate analyzer (`calculateHeartRateStats`) -/

/-- Result record of `calculateHeartRateStats`.  `max`/`min` are
`Math.max`/`Math.min` over the positive heart-rate samples; `none` encodes
the `±Infinity` JavaScript produces when there are none. -/
structure HeartRateStats where
  average : ℤ
  max : Option ℚ
  min : Option ℚ
  lthr : ℤ
  hrDrift : ℚ
  cardiacDrift : ℚ
  deriving Repr, DecidableEq

/-- First quarter of a series: `slice(0, Math.floor(length / 4))`. -/
def firstQuarterOf (l : List ℚ) : List ℚ := l.take (l.length / 4)

/-- Last quarter of a series: `slice(Math.floor(length * 3 / 4))`. -/
def lastQuarterOf (l : List ℚ) : List ℚ := l.drop (l.length * 3 / 4)

/-- Arithmetic mean `arr.reduce((a,b) => a+b, 0) / arr.length` (0 on an
empty list where JavaScript yields `NaN`). -/
def avgOf (l : List ℚ) : ℚ := listSum l / l.length

/-- `calculateHeartRateStats` from `ftpAnalysis.ts`.  Quarter averages of
heart rate filter out non-positive samples first.  When a filtered quarter
is empty JavaScript produces `NaN` averages where this model yields `0`;
the claims about this function carry hypotheses keeping the inputs inside
the faithful domain. -/
def calculateHeartRateStats (heartRateData powerData : List ℚ) : HeartRateStats :=
  let validHR := heartRateData.filter (fun hr => 0 < hr)
  let avg := listSum validHR / validHR.length
  let firstQuarter := heartRateData.take (heartRateData.length / 4)
  let lastQuarter := heartRateData.drop (heartRateData.length * 3 / 4)
  let avgFirstHR :=
    listSum (firstQuarter.filter (fun hr => 0 < hr)) / (firstQuarter.filter (fun hr => 0 < hr)).length
  let avgLastHR :=
    listSum (lastQuarter.filter (fun hr => 0 < hr)) / (lastQuarter.filter (fun hr => 0 < hr)).length
  let hrDrift := ((avgLastHR - avgFirstHR) / avgFirstHR) * 100
  let powerFirstQuarter := powerData.take (powerData.length / 4)
  let powerLastQuarter := powerData.drop (powerData.length * 3 / 4)
  let avgFirstPower := listSum powerFirstQuarter / powerFirstQuarter.length
  let avgLastPower := listSum powerLastQuarter / powerLastQuarter.length
  let powerDrop := avgFirstPower - avgLastPower
  let hrIncrease := avgLastHR - avgFirstHR
  let cardiacDrift := if |powerDrop| > 1 then hrIncrease / |powerDrop| else 0
  { average := jsRound avg
    max := jsMax validHR
    min := jsMin (validHR.filter (fun hr => 0 < hr))
    lthr := jsRound avg
    hrDrift := toFixed1 hrDrift
    cardiacDrift := toFixed2 cardiacDrift }

/-! ### Performance grading (`PERFORMANCE_GRADES`, `calculateWattsPerKg`) -/

/-- One row of the static grade table (`maxWattsPerKg: number | null`). -/
structure PerformanceGrade where
  grade : String
  category : String
  minWattsPerKg : ℚ
  maxWattsPerKg : Option ℚ
  percentile : ℕ
  description : String
  deriving Repr, DecidableEq

/-- The static 13-row performance grade table from `ftpAnalysis.ts`. -/
def PERFORMANCE_GRADES : List PerformanceGrade := [
  { grade := "F", category := "Untrained", minWattsPerKg := 0, maxWattsPerKg := some 2.0,
    percentile := 5, description := "New to cycling or very sedentary" },
  { grade := "D-", category := "Novice", minWattsPerKg := 2.0, maxWattsPerKg := some 2.5,
    percentile := 15, description := "Recreational cyclist, getting started" },
  { grade := "D", category := "Novice", minWattsPerKg := 2.5, maxWattsPerKg := some 3.0,
    percentile := 25, description := "Regular recreational riding" },
  { grade := "D+", category := "Fair", minWattsPerKg := 3.0, maxWattsPerKg := some 3.2,
    percentile := 35, description := "Developing fitness base" },
  { grade := "C-", category := "Fair", minWattsPerKg := 3.2, maxWattsPerKg := some 3.4,
    percentile := 40, description := "Solid recreational cyclist" },
  { grade := "C", category := "Good", minWattsPerKg := 3.4, maxWattsPerKg := some 3.7,
    percentile := 50, description := "Above average fitness" },
  { grade := "C+", category := "Good", minWattsPerKg := 3.7, maxWattsPerKg := some 4.0,
    percentile := 60, description := "Strong recreational rider" },
  { grade := "B-", category := "Very Good", minWattsPerKg := 4.0, maxWattsPerKg := some 4.3,
    percentile := 70, description := "Club level competitive" },
  { grade := "B", category := "Very Good", minWattsPerKg := 4.3, maxWattsPerKg := some 4.6,
    percentile := 80, description := "Strong club racer" },
  { grade := "B+", category := "Excellent", minWattsPerKg := 4.6, maxWattsPerKg := some 5.0,
    percentile := 87, description := "Regional competitive level" },
  { grade := "A-", category := "Excellent", minWattsPerKg := 5.0, maxWattsPerKg := some 5.4,
    percentile := 93, description := "Cat 2-3 racing level" },
  { grade := "A", category := "Superior", minWattsPerKg := 5.4, maxWattsPerKg := some 6.0,
    percentile := 97, description := "Cat 1-2 racing level" },
  { grade := "A+", category := "World Class", minWattsPerKg := 6.0, maxWattsPerKg := none,
    percentile := 99, description := "Professional/elite level" }]

/-- The row-matching test of the grade-lookup loop:
`ratio >= g.minWattsPerKg && (g.maxWattsPerKg === null || ratio < g.maxWattsPerKg)`. -/
def gradeMatches (ratio : ℚ) (g : PerformanceGrade) : Bool :=
  decide (g.minWattsPerKg ≤ ratio) &&
    (match g.maxWattsPerKg with
     | none => true
     | some mx => decide (ratio < mx))

/-- Checker for the static shape of the grade table: adjacent rows are
contiguous (`upper bound = next row's lower bound`) with strictly
ascending percentiles, and the final row's upper bound is unbounded. -/
def gradeTableOk : List PerformanceGrade → Bool
  | [] => true
  | [g] => g.maxWattsPerKg.isNone
  | g₁ :: g₂ :: rest =>
    (match g₁.maxWattsPerKg with
     | some mx => decide (mx = g₂.minWattsPerKg)
     | none => false) &&
    decide (g₁.percentile < g₂.percentile) && gradeTableOk (g₂ :: rest)

/-- Result record of `calculateWattsPerKg`. -/
structure WattsPerKgStats where
  classicFTPPerKg : ℚ
  normalizedFTPPerKg : ℚ
  averagePowerPerKg : ℚ
  maxPowerPerKg : ℚ
  grade : String
  category : String
  percentile : ℕ
  description : String
  deriving Repr, DecidableEq

/-- Placeholder row for the (unreachable) lookup default on an empty
table; the source indexes `PERFORMANCE_GRADES[length - 1]` directly. -/
def emptyGradeRow : PerformanceGrade :=
  { grade := "", category := "", minWattsPerKg := 0, maxWattsPerKg := none,
    percentile := 0, description := "" }

/-- `calculateWattsPerKg` from `ftpAnalysis.ts`.  The lookup default is the
last table row (the source comment says "lowest grade" but
`PERFORMANCE_GRADES[PERFORMANCE_GRADES.length - 1]` is the top row), and
the loop takes the first matching row.  A zero `riderWeight` yields
non-finite ratios in JavaScript; `ℚ` division by zero yields `0`, so
claims about this function avoid that corner. -/
def calculateWattsPerKg (stats : Stats) (riderWeight : ℚ) : WattsPerKgStats :=
  let classicFTPPerKg := (stats.classicFTP : ℚ) / riderWeight
  let normalizedFTPPerKg := (stats.normalizedFTP : ℚ) / riderWeight
  let averagePowerPerKg := (stats.average : ℚ) / riderWeight
  let maxPowerPerKg := stats.max / riderWeight
  let grade :=
    (PERFORMANCE_GRADES.find? (gradeMatches classicFTPPerKg)).getD
      (PERFORMANCE_GRADES.getLastD emptyGradeRow)
  { classicFTPPerKg := toFixed2 classicFTPPerKg
    normalizedFTPPerKg := toFixed2 normalizedFTPPerKg
    averagePowerPerKg := toFixed2 averagePowerPerKg
    maxPowerPerKg := toFixed2 maxPowerPerKg
    grade := grade.grade
    category := grade.category
    percentile := grade.percentile
    description := grade.description }

/-! ### Segment extractor (`extractBestFTPSegment`) -/

/-- `segmentInfo` record: which slice of the recording was analyzed. -/
structure SegmentInfo where
  startTime : ℕ
  duration : ℕ
  reason : String
  deriving Repr, DecidableEq

/-- Result record of `extractBestFTPSegment`. -/
structure SegmentResult where
  power : List ℚ
  heartRate : Option (List ℚ)
  speed : Option (List ℚ)
  distance : Option (List ℚ)
  elevation : Option (List ℚ)
  segmentInfo : SegmentInfo
  deriving Repr, DecidableEq

/-- `extractBestFTPSegment` from `ftpAnalysis.ts`.  `targetDurationMinutes`
(default 20) is taken as a natural number of minutes.  The long-workout
branch slides a `targetMinutes×60`-sample window in steps of 30, keeping
the window with the strictly highest mean (ties and the all-nonpositive
case keep the earlier index, as in the source where `bestAverage` starts
at `0`).  The `console.log` call of the source is elided. -/
def extractBestFTPSegment (powerData : List ℚ) (heartRateData : Option (List ℚ) := none)
    (targetDurationMinutes : ℕ := 20) (speedData : Option (List ℚ) := none)
    (distanceData : Option (List ℚ) := none) (elevationData : Option (List ℚ) := none) :
    SegmentResult :=
  let targetSeconds := targetDurationMinutes * 60
  let dataLengthMinutes : ℚ := (powerData.length : ℚ) / 60
  if (powerData.length : ℚ) ≤ (targetSeconds : ℚ) * 1.25 ∧
      (powerData.length : ℚ) ≥ (targetSeconds : ℚ) * 0.75 then
    { power := powerData
      heartRate := heartRateData
      speed := speedData
      distance := distanceData
      elevation := elevationData
      segmentInfo := {
        startTime := 0
        duration := powerData.length
        reason := "Full " ++ toString (jsRound dataLengthMinutes) ++
          "-minute workout used (close to " ++ toString targetDurationMinutes ++
          "-minute target)" } }
  else if (powerData.length : ℚ) < (targetSeconds : ℚ) * 0.75 then
    { power := powerData
      heartRate := heartRateData
      speed := speedData
      distance := distanceData
      elevation := elevationData
      segmentInfo := {
        startTime := 0
        duration := powerData.length
        reason := "Short " ++ toString (jsRound dataLengthMinutes) ++
          "-minute workout - using all available data" } }
  else
    let windowSize := targetSeconds
    -- `for (let i = 0; i <= length - windowSize; i += 30)`; the two guards
    -- above ensure `length > 1.25 · windowSize ≥ windowSize` here, so the
    -- truncated subtraction agrees with the JavaScript loop bound.
    let steps := (powerData.length - windowSize) / 30 + 1
    let best :=
      (List.range steps).foldl
        (fun acc k =>
          let i := k * 30
          let segment := (powerData.drop i).take windowSize
          let segmentAverage := listSum segment / segment.length
          if acc.1 < segmentAverage then (segmentAverage, i) else acc)
        ((0 : ℚ), (0 : ℕ))
    let bestAverage := best.1
    let bestStartIndex := best.2
    let startTimeMinutes := jsRound ((bestStartIndex : ℚ) / 60)
    let endTimeMinutes := jsRound (((bestStartIndex + windowSize : ℕ) : ℚ) / 60)
    { power := (powerData.drop bestStartIndex).take windowSize
      heartRate := heartRateData.map (fun l => (l.drop bestStartIndex).take windowSize)
      speed := speedData.map (fun l => (l.drop bestStartIndex).take windowSize)
      distance := distanceData.map (fun l => (l.drop bestStartIndex).take windowSize)
      elevation := elevationData.map (fun l => (l.drop bestStartIndex).take windowSize)
      segmentInfo := {
        startTime := bestStartIndex
        duration := windowSize
        reason := "Best " ++ toString targetDurationMinutes ++ "-minute segment from " ++
          toString (jsRound dataLengthMinutes) ++ "-minute workout (minutes " ++
          toString startTimeMinutes ++ "-" ++ toString endTimeMinutes ++ ", avg " ++
          toString (jsRound bestAverage) ++ "w)" } }

/-! ### CSV parsers (`csvParser.ts`)

The parsers work on the character list underlying the input string.  The
JavaScript string primitives used by the source (`trim`, `split`,
`toLowerCase`, `includes`) are modelled by the explicit character-list
functions below, and `parseFloat` by `jsParseFloat`, which handles
decimal/exponent notation exactly (the `Infinity`/hexadecimal acceptances
of the host `parseFloat`, and its binary-float rounding, are outside the
model). -/

/-- Whitespace for `trim` (ASCII space, tab, newline, carriage return). -/
def isWS (c : Char) : Bool := c = ' ' || c = '\t' || c = '\n' || c = '\r'

/-- `s.trim()`: strip whitespace from both ends. -/
def trimChars (cs : List Char) : List Char :=
  ((cs.dropWhile isWS).reverse.dropWhile isWS).reverse

/-- `s.toLowerCase()` (ASCII). -/
def lowerChars (cs : List Char) : List Char := cs.map Char.toLower

/-- `s.split(sep)`: split on every occurrence, keeping empty segments
(`"".split(sep)` is `[""]`). -/
def splitOnChar (sep : Char) : List Char → List (List Char)
  | [] => [[]]
  | c :: rest =>
    let r := splitOnChar sep rest
    if c = sep then [] :: r
    else
      match r with
      | [] => [[c]]
      | h :: t => (c :: h) :: t

/-- Does `pat` occur at the head of `text`? -/
def leadsList : List Char → List Char → Bool
  | [], _ => true
  | _ :: _, [] => false
  | p :: ps, c :: cs => p = c && leadsList ps cs

/-- `text.includes(pat)`: substring occurrence test. -/
def containsSub (pat : List Char) : List Char → Bool
  | [] => leadsList pat []
  | c :: rest => leadsList pat (c :: rest) || containsSub pat rest

/-- Digit run to a natural number. -/
def digitsToNat (ds : List Char) : ℕ :=
  ds.foldl (fun acc d => 10 * acc + (d.toNat - '0'.toNat)) 0

/-- `parseFloat`: longest numeric prefix (optional sign, digits, optional
fraction, optional exponent); `none` models `NaN` (no digit found). -/
def jsParseFloat (cs : List Char) : Option ℚ :=
  let cs := cs.dropWhile isWS
  let signAndRest : ℚ × List Char :=
    match cs with
    | '-' :: rest => (-1, rest)
    | '+' :: rest => (1, rest)
    | _ => (1, cs)
  let sgn := signAndRest.1
  let afterSign := signAndRest.2
  let ipSpan := afterSign.span Char.isDigit
  let ip := ipSpan.1
  let afterInt := ipSpan.2
  let fpSpan : List Char × List Char :=
    match afterInt with
    | '.' :: rest => rest.span Char.isDigit
    | _ => ([], afterInt)
  let fp := fpSpan.1
  let afterFrac := if afterInt.head? = some '.' then fpSpan.2 else afterInt
  if ip.isEmpty && fp.isEmpty then none
  else
    let mant : ℚ := (digitsToNat ip : ℚ) + (digitsToNat fp : ℚ) / (10 : ℚ) ^ fp.length
    let e : ℤ :=
      match afterFrac with
      | 'e' :: rest | 'E' :: rest =>
        let esAndRest : ℤ × List Char :=
          match rest with
          | '-' :: r => (-1, r)
          | '+' :: r => (1, r)
          | _ => (1, rest)
        let ed := (esAndRest.2.takeWhile Char.isDigit)
        if ed.isEmpty then 0 else esAndRest.1 * digitsToNat ed
      | _ => 0
    some (sgn * mant * (10 : ℚ) ^ e)

/-- `ParsedData` from `csvParser.ts`.  `speed`/`distance`/`elevation` are
in the interface but never produced by the CSV parsers. -/
structure ParsedData where
  power : List ℤ
  heartRate : Option (List ℤ)
  speed : Option (List ℚ)
  distance : Option (List ℚ)
  elevation : Option (List ℚ)
  time : List ℚ
  deriving Repr, DecidableEq

/-- `csvContent.trim().split('\n')`. -/
def csvLines (csvContent : String) : List (List Char) :=
  splitOnChar '\n' (trimChars csvContent.data)

/-- `lines[0].split(',').map(h => h.trim().toLowerCase())`. -/
def csvHeaders (csvContent : String) : List (List Char) :=
  (splitOnChar ',' ((csvLines csvContent).headD [])).map (fun h => lowerChars (trimChars h))

/-- Power-column test: header contains `power`, `watts` or `avg_power`. -/
def isPowerHeader (h : List Char) : Bool :=
  containsSub "power".data h || containsSub "watts".data h || containsSub "avg_power".data h

/-- Heart-rate-column test: header contains `heart`, `hr` or `bpm`. -/
def isHRHeader (h : List Char) : Bool :=
  containsSub "heart".data h || containsSub "hr".data h || containsSub "bpm".data h

/-- Time-column test: header contains `time`, `elapsed` or `seconds`. -/
def isTimeHeader (h : List Char) : Bool :=
  containsSub "time".data h || containsSub "elapsed".data h || containsSub "seconds".data h

/-- Index of the power column (`findIndex`; `none` for `-1`). -/
def csvPowerIdx (csvContent : String) : Option ℕ :=
  (csvHeaders csvContent).findIdx? isPowerHeader

/-- Index of the heart-rate column. -/
def csvHRIdx (csvContent : String) : Option ℕ :=
  (csvHeaders csvContent).findIdx? isHRHeader

/-- Index of the time column. -/
def csvTimeIdx (csvContent : String) : Option ℕ :=
  (csvHeaders csvContent).findIdx? isTimeHeader

/-- Data rows split into cells (`lines[i].split(',')` for `i ≥ 1`). -/
def csvRows (csvContent : String) : List (List (List Char)) :=
  ((csvLines csvContent).drop 1).map (splitOnChar ',')

/-- `values[idx]?.trim() || '0'`: an absent or all-whitespace cell becomes
the string `"0"`. -/
def getCell (values : List (List Char)) (idx : ℕ) : List Char :=
  match values[idx]? with
  | none => ['0']
  | some v =>
    let t := trimChars v
    if t.isEmpty then ['0'] else t

/-- Per-row power extraction of `parseCSV`:
`push(Math.round(v))` when `!isNaN(v) && v >= 0`, otherwise the row
contributes nothing to the power series. -/
def powerOfRow (values : List (List Char)) (idx : ℕ) : Option ℤ :=
  match jsParseFloat (getCell values idx) with
  | some v => if 0 ≤ v then some (jsRound v) else none
  | none => none

/-- Per-row heart-rate extraction of `parseCSV`: a positive parsed value is
rounded and kept, anything else becomes `0` (the row is never skipped). -/
def hrOfRow (values : List (List Char)) (idx : ℕ) : ℤ :=
  match jsParseFloat (getCell values idx) with
  | some v => if 0 < v then jsRound v else 0
  | none => 0

/-- Per-row time extraction of `parseCSV`: the parsed value is kept
unrounded; a `NaN` parse contributes nothing. -/
def timeOfRow (values : List (List Char)) (idx : ℕ) : Option ℚ :=
  jsParseFloat (getCell values idx)

/-- `parseCSV` from `csvParser.ts`.  The thrown errors ("No power column
found in CSV", "No valid power data found") are caught by the source's
`try`/`catch` which returns `null`; both appear here as `none`.  The
source fills `power`, `heartRate` and `time` in a single loop over the
data rows; the three series are independent, so they are modelled as one
traversal each. -/
def parseCSV (csvContent : String) : Option ParsedData :=
  if (csvLines csvContent).length < 2 then none
  else
    match csvPowerIdx csvContent with
    | none => none
    | some powerIndex =>
      let power := (csvRows csvContent).filterMap (fun values => powerOfRow values powerIndex)
      let heartRate : Option (List ℤ) :=
        match csvHRIdx csvContent with
        | some hrIndex => some ((csvRows csvContent).map (fun values => hrOfRow values hrIndex))
        | none => none
      let time : List ℚ :=
        match csvTimeIdx csvContent with
        | some timeIndex =>
          (csvRows csvContent).filterMap (fun values => timeOfRow values timeIndex)
        | none =>
          -- `time.push(i - 1)`: generated 0-based row index.
          (List.range (csvRows csvContent).length).map (fun j : ℕ => (j : ℚ))
      if power.length = 0 then none
      else
        some { power := power, heartRate := heartRate, speed := none, distance := none,
               elevation := none, time := time }

/-- Header cells of the TrainingPeaks parser: trimmed but *not*
lowercased (`headers = lines[0].split(',').map(h => h.trim())`). -/
def tpHeaders (csvContent : String) : List (List Char) :=
  (splitOnChar ',' ((csvLines csvContent).headD [])).map trimChars

/-- TrainingPeaks power-column test (lowercased substring matches plus the
exact vendor header). -/
def tpIsPowerHeader (h : List Char) : Bool :=
  containsSub "power".data (lowerChars h) || containsSub "watts".data (lowerChars h) ||
    h = "Power (watts)".data

/-- TrainingPeaks heart-rate-column test. -/
def tpIsHRHeader (h : List Char) : Bool :=
  containsSub "heart rate".data (lowerChars h) || containsSub "hr".data (lowerChars h) ||
    h = "Heart Rate (bpm)".data

/-- `parseTrainingPeaksCSV` from `csvParser.ts`.  When no TrainingPeaks
power column is found it defers to the generic `parseCSV`.  Its row loop
pushes power, the original 0-based row index as time, and heart rate
together, and only on rows whose power value parses to a non-negative
number.  Unlike `parseCSV` it has no `power.length === 0` check before
returning, so it can return a non-null result whose power series is
empty. -/
def parseTrainingPeaksCSV (csvContent : String) : Option ParsedData :=
  if (csvLines csvContent).length < 2 then none
  else
    match (tpHeaders csvContent).findIdx? tpIsPowerHeader with
    | none => parseCSV csvContent
    | some powerIndex =>
      let hrIndex := (tpHeaders csvContent).findIdx? tpIsHRHeader
      let triples : List (ℤ × ℚ × ℤ) :=
        ((csvLines csvContent).drop 1).enum.filterMap (fun ji =>
          let values := splitOnChar ',' ji.2
          match jsParseFloat (getCell values powerIndex) with
          | some v =>
            if 0 ≤ v then
              some (jsRound v, (ji.1 : ℚ),
                match hrIndex with
                | some k =>
                  match jsParseFloat (getCell values k) with
                  | some w => if 0 < w then jsRound w else 0
                  | none => 0
                | none => 0)
            else none
          | none => none)
      some { power := triples.map (fun t => t.1)
             heartRate :=
               match hrIndex with
               | some _ => some (triples.map (fun t => t.2.2))
               | none => none
             speed := none, distance := none, elevation := none
             time := triples.map (fun t => t.2.1) }

/-- Validity of every data row of `parseCSV` for an input: each row yields
a usable power value and (when a time column exists) a parseable time
value.  Under this condition the per-row extractions never skip a row, so
the output series stay aligned. -/
def csvAllRowsValid (csvContent : String) : Bool :=
  (csvRows csvContent).all (fun row =>
    (match csvPowerIdx csvContent with
     | some p => (powerOfRow row p).isSome
     | none => false) &&
    (match csvTimeIdx csvContent with
     | some k => (timeOfRow row k).isSome
     | none => true))

/-! ### Lemmas about the integer root machinery -/

/-- The bisection maintains its bracketing invariant and lands on the
integer square root. -/
theorem isqrtAux_spec (n : ℕ) :
    ∀ fuel lo hi, lo * lo ≤ n → n < hi * hi → lo < hi → hi - lo ≤ fuel + 1 →
      isqrtAux n fuel lo hi * isqrtAux n fuel lo hi ≤ n ∧
        n < (isqrtAux n fuel lo hi + 1) * (isqrtAux n fuel lo hi + 1)
  | 0, lo, hi, h1, h2, h3, h4 => by
    have hhi : hi = lo + 1 := by omega
    subst hhi
    simpa [isqrtAux] using ⟨h1, h2⟩
  | fuel + 1, lo, hi, h1, h2, h3, h4 => by
    rw [isqrtAux]
    by_cases hc : hi ≤ lo + 1
    · have hhi : hi = lo + 1 := by omega
      subst hhi
      simpa [hc] using ⟨h1, h2⟩
    · simp only [if_neg hc]
      by_cases hm : ((lo + hi) / 2) * ((lo + hi) / 2) ≤ n
      · simpa [hm] using
          isqrtAux_spec n fuel ((lo + hi) / 2) hi hm h2 (by omega) (by omega)
      · simpa [hm] using
          isqrtAux_spec n fuel lo ((lo + hi) / 2) h1 (by omega) (by omega) (by omega)

/-- `isqrt n` is the integer square root of `n`. -/
theorem isqrt_spec (n : ℕ) :
    isqrt n * isqrt n ≤ n ∧ n < (isqrt n + 1) * (isqrt n + 1) := by
  have h := isqrtAux_spec n (n + 1) 0 (n + 1) (by simp) (by nlinarith) (by omega) (by omega)
  simpa [isqrt] using h

/-- `floor4Root q` is `⌊q^(1/4)⌋`: its fourth power is at most `q`, and the
fourth power of its successor exceeds `q`. -/
theorem floor4Root_spec (q : ℚ) (hq : 0 ≤ q) :
    ((floor4Root q : ℚ)) ^ 4 ≤ q ∧ q < ((floor4Root q : ℚ) + 1) ^ 4 := by
  set a := q.num.toNat with ha_def
  set b := q.den with hb_def
  have hb : 0 < b := q.den_pos
  have ha : ((a : ℤ) : ℚ) = (q.num : ℚ) := by
    exact_mod_cast Int.toNat_of_nonneg (Rat.num_nonneg.mpr hq)
  have hq_eq : q = (a : ℚ) / (b : ℚ) := by
    rw [← Rat.num_div_den q]
    push_cast at ha ⊢
    rw [ha]
  set N := a * b ^ 3 with hN_def
  set s₁ := isqrt N with hs₁_def
  set s₂ := isqrt s₁ with hs₂_def
  have f0 := isqrt_spec N
  have f1 := isqrt_spec s₁
  have hk : floor4Root q = s₂ / b := rfl
  set k := s₂ / b with hk_def
  -- `s₂` is the integer fourth root of `N`
  have g1 : s₂ ^ 4 ≤ N := by
    calc s₂ ^ 4 = (s₂ * s₂) * (s₂ * s₂) := by ring
    _ ≤ s₁ * s₁ := Nat.mul_le_mul f1.1 f1.1
    _ ≤ N := f0.1
  have g2 : N < (s₂ + 1) ^ 4 := by
    calc N < (s₁ + 1) * (s₁ + 1) := f0.2
    _ ≤ ((s₂ + 1) * (s₂ + 1)) * ((s₂ + 1) * (s₂ + 1)) :=
        Nat.mul_le_mul f1.2 f1.2
    _ = (s₂ + 1) ^ 4 := by ring
  have g3 : k * b ≤ s₂ := Nat.div_mul_le_self s₂ b
  have g4 : s₂ < (k + 1) * b := by
    rw [hk_def]
    have hmod := Nat.div_add_mod s₂ b
    have hlt := Nat.mod_lt s₂ hb
    calc s₂ = b * (s₂ / b) + s₂ % b := hmod.symm
    _ < b * (s₂ / b) + b := by omega
    _ = (s₂ / b + 1) * b := by ring
  -- transfer to the numerator/denominator of `q`
  have h1 : k ^ 4 * b ≤ a := by
    have : (k * b) ^ 4 ≤ a * b ^ 3 := le_trans (Nat.pow_le_pow_left g3 4) g1
    have h' : (k ^ 4 * b) * b ^ 3 ≤ a * b ^ 3 := by
      calc (k ^ 4 * b) * b ^ 3 = (k * b) ^ 4 := by ring
      _ ≤ a * b ^ 3 := this
    exact Nat.le_of_mul_le_mul_right h' (by positivity)
  have h2 : a < (k + 1) ^ 4 * b := by
    have : a * b ^ 3 < ((k + 1) * b) ^ 4 :=
      lt_of_lt_of_le g2 (Nat.pow_le_pow_left (by omega : s₂ + 1 ≤ (k + 1) * b) 4)
    have h' : a * b ^ 3 < ((k + 1) ^ 4 * b) * b ^ 3 := by
      calc a * b ^ 3 < ((k + 1) * b) ^ 4 := this
      _ = ((k + 1) ^ 4 * b) * b ^ 3 := by ring
    exact Nat.lt_of_mul_lt_mul_right h'
  rw [hk, hq_eq]
  have hbq : (0 : ℚ) < (b : ℚ) := by exact_mod_cast hb
  constructor
  · rw [le_div_iff hbq]
    exact_mod_cast h1
  · rw [div_lt_iff hbq]
    exact_mod_cast h2

/-- On radicand `1` the scaled fourth-root floor is just the floor of the
coefficient. -/
theorem floorScaled4Root_one (c : ℚ) : floorScaled4Root c 1 = ⌊c⌋ := by
  have h4 : (0 : ℚ) ≤ c ^ 4 := by positivity
  have spec := floor4Root_spec (c ^ 4) h4
  set k := floor4Root (c ^ 4) with hk_def
  have hk0 : (0 : ℚ) ≤ (k : ℚ) := by positivity
  unfold floorScaled4Root
  simp only [mul_one, ← hk_def]
  by_cases hc : 0 ≤ c
  · rw [if_pos hc]
    symm
    rw [Int.floor_eq_iff]
    constructor
    · exact_mod_cast (pow_le_pow_iff_left hk0 hc (by norm_num)).mp spec.1
    · have := (pow_lt_pow_iff_left hc (by positivity) (by norm_num)).mp spec.2
      push_cast
      linarith
  · rw [if_neg hc]
    push_neg at hc
    have hd : (0 : ℚ) < -c := by linarith
    have hc4 : c ^ 4 = (-c) ^ 4 := by ring
    have hk_le : (k : ℚ) ≤ -c := by
      refine (pow_le_pow_iff_left hk0 (le_of_lt hd) (by norm_num : (4:ℕ) ≠ 0)).mp ?_
      rw [← hc4]; exact spec.1
    have hlt : -c < (k : ℚ) + 1 := by
      refine (pow_lt_pow_iff_left (le_of_lt hd) (by positivity) (by norm_num : (4:ℕ) ≠ 0)).mp ?_
      rw [← hc4]; exact spec.2
    by_cases heq : ((k : ℚ)) ^ 4 = c ^ 4
    · rw [if_pos heq]
      have hkd : (k : ℚ) = -c := by
        have h1 : (k : ℚ) ≤ -c := hk_le
        have h2 : -c ≤ (k : ℚ) := by
          by_contra hlt2
          push_neg at hlt2
          have hpow := (pow_lt_pow_iff_left hk0 (le_of_lt hd) (by norm_num : (4:ℕ) ≠ 0)).mpr hlt2
          rw [← hc4] at hpow
          exact absurd heq (ne_of_lt hpow)
        linarith
      have : c = ((-(k : ℤ) : ℤ) : ℚ) := by push_cast; linarith
      rw [this, Int.floor_intCast]
    · rw [if_neg heq]
      have hk_lt : (k : ℚ) < -c := by
        rcases lt_or_eq_of_le hk_le with h | h
        · exact h
        · exact absurd (by rw [hc4, ← h]) heq
      symm
      rw [Int.floor_eq_iff]
      constructor
      · push_cast
        linarith
      · push_cast
        linarith

/-- Floor of `x + 1/2` computed from the floor of `2x` by integer halving. -/
theorem half_floor (c : ℚ) : (⌊2 * c⌋ + 1) / 2 = ⌊c + 1/2⌋ := by
  have h1 : ((⌊c + 1/2⌋ : ℤ) : ℚ) ≤ c + 1/2 := Int.floor_le _
  have h2 : c + 1/2 < (⌊c + 1/2⌋ : ℚ) + 1 := Int.lt_floor_add_one _
  have h3 : ((⌊2*c⌋ : ℤ) : ℚ) ≤ 2*c := Int.floor_le _
  have h4 : 2*c < (⌊2*c⌋ : ℚ) + 1 := Int.lt_floor_add_one _
  have hg1 : 2 * ⌊c + 1/2⌋ - 1 ≤ ⌊2*c⌋ := by
    apply Int.le_floor.mpr
    push_cast
    linarith
  have hg2 : ⌊2*c⌋ ≤ 2 * ⌊c + 1/2⌋ := by
    have h5 : (⌊2*c⌋ : ℚ) < 2 * (⌊c + 1/2⌋ : ℚ) + 1 := by linarith
    have h6 : ⌊2*c⌋ < 2 * ⌊c + 1/2⌋ + 1 := by exact_mod_cast h5
    omega
  omega

/-- On radicand `1` the symbolic rounding agrees with `Math.round` of the
coefficient: this is the bridge for the sub-30-sample fallback branch. -/
theorem npRound_exact (c : ℚ) : npRound c 1 = jsRound c := by
  unfold npRound jsRound
  rw [floorScaled4Root_one]
  exact half_floor c

/-- A `filterMap` whose function succeeds on every element preserves
length. -/
theorem length_filterMap_of_isSome {α β : Type} (f : α → Option β) :
    ∀ l : List α, (∀ x ∈ l, (f x).isSome) → (l.filterMap f).length = l.length
  | [], _ => rfl
  | x :: xs, h => by
    obtain ⟨b, hb⟩ := Option.isSome_iff_exists.mp (h x (List.mem_cons_self x xs))
    simp [List.filterMap_cons, hb,
      length_filterMap_of_isSome f xs (fun y hy => h y (List.mem_cons_of_mem x hy))]

/-- `listSum` is `List.sum`. -/
theorem listSum_eq_sum (l : List ℚ) : listSum l = l.sum := List.sum_eq_foldl.symm

/-- Generic form of the sub-30-sample fallback law over rational series:
with fewer than 30 samples the rolling-window branch is skipped, so the
`normalized` field rounds the same exact mean as the `average` field. -/
theorem calculateStats_normalized_eq_average_short (x : ℚ) (xs : List ℚ)
    (h : (x :: xs).length < 30) (s : Stats) (hs : calculateStats (x :: xs) = .ok s) :
    s.normalized = s.average := by
  have hlen : ¬ (30 ≤ (x :: xs).length) := by omega
  simp only [calculateStats, if_neg hlen, Except.ok.injEq] at hs
  rw [← hs]
  exact npRound_exact _

set_option maxRecDepth 20000

/-! ### Claim theorems -/

/-- Claim C9: calling `calculateStats` on the empty power series fails
loudly — it throws (`Except.error`, with the source's message) rather than
returning a `Stats` value. -/
theorem calculateStats_empty_throws :
    calculateStats [] = .error "Power data cannot be empty" := rfl

/-- Claim C6: for every non-empty integer power series of length strictly
below 30, the `normalized` field of `calculateStats` equals its `average`
field (the normalized-power fallback law). -/
theorem normalized_eq_average_of_short_input (p : List ℤ) (h₁ : p ≠ [])
    (h₂ : p.length < 30) (s : Stats)
    (hs : calculateStats (p.map (fun n : ℤ => (n : ℚ))) = .ok s) :
    s.normalized = s.average := by
  match p, h₁ with
  | n :: ns, _ =>
    exact calculateStats_normalized_eq_average_short (n : ℚ)
      (ns.map (fun n : ℤ => (n : ℚ))) (by simpa using h₂) s hs

/-- Witness for C6 at the spec's worked example `[250, 255, 245, 260, 240]`. -/
theorem normalized_eq_average_of_short_input_witness :
    ([250, 255, 245, 260, 240] : List ℤ) ≠ [] ∧
      ([250, 255, 245, 260, 240] : List ℤ).length < 30 ∧
      calculateStats (([250, 255, 245, 260, 240] : List ℤ).map (fun n : ℤ => (n : ℚ))) =
        .ok { average := 250, normalized := 250, max := 260, min := 240,
              variabilityIndex := some 1, stdDev := 7, classicFTP := 238,
              normalizedFTP := 238, intensityFactor := some 1 } ∧
      ({ average := 250, normalized := 250, max := 260, min := 240,
         variabilityIndex := some 1, stdDev := 7, classicFTP := 238,
         normalizedFTP := 238, intensityFactor := some 1 } : Stats).normalized =
        ({ average := 250, normalized := 250, max := 260, min := 240,
           variabilityIndex := some 1, stdDev := 7, classicFTP := 238,
           normalizedFTP := 238, intensityFactor := some 1 } : Stats).average :=
  ⟨by decide, by decide, by with_unfolding_all rfl,
    normalized_eq_average_of_short_input [250, 255, 245, 260, 240] (by decide) (by decide) _
      (by with_unfolding_all rfl)⟩

/-- Claim C2 (counterexample): at the integer power series `[189, 190]` the
`classicFTP` field is `180`, while `round(average × 0.95)` of the same
result is `round(190 × 0.95) = 181` — the round-trip law as stated fails,
because `classicFTP` is computed from the exact mean `189.5`, not from the
rounded `average` field. -/
theorem classicFTP_roundtrip_cex :
    (calculateStats [(189 : ℚ), 190]).toOption.map
        (fun s => (s.classicFTP, jsRound ((s.average : ℚ) * 0.95))) =
      some (180, 181) ∧ (180 : ℤ) ≠ 181 :=
  ⟨by with_unfolding_all rfl, by decide⟩

/-- Claim C2 (amended): for every non-empty power series, `classicFTP`
equals `round(mean × 0.95)` and `average` equals `round(mean)` where
`mean` is the exact (unrounded) arithmetic mean; the stated law
`classicFTP = round(average × 0.95)` holds only when the two roundings
agree. -/
theorem classicFTP_eq_round_of_exact_mean (p : List ℚ) (hp : p ≠ []) (s : Stats)
    (hs : calculateStats p = .ok s) :
    s.classicFTP = jsRound (p.sum / p.length * 0.95) ∧
      s.average = jsRound (p.sum / p.length) := by
  match p, hp with
  | x :: xs, _ =>
    simp only [calculateStats, Except.ok.injEq] at hs
    rw [← hs]
    dsimp only
    refine ⟨?_, ?_⟩ <;> simp only [listSum_eq_sum]

/-- Witness for the amended C2 at `[189, 190]`. -/
theorem classicFTP_eq_round_of_exact_mean_witness :
    ([(189 : ℚ), 190] ≠ []) ∧
      calculateStats [(189 : ℚ), 190] =
        .ok { average := 190, normalized := 190, max := 190, min := 189,
              variabilityIndex := some 1, stdDev := 1, classicFTP := 180,
              normalizedFTP := 180, intensityFactor := some 1 } ∧
      (({ average := 190, normalized := 190, max := 190, min := 189,
          variabilityIndex := some 1, stdDev := 1, classicFTP := 180,
          normalizedFTP := 180, intensityFactor := some 1 } : Stats).classicFTP =
          jsRound (([(189 : ℚ), 190].sum / ([(189 : ℚ), 190] : List ℚ).length) * 0.95) ∧
        ({ average := 190, normalized := 190, max := 190, min := 189,
           variabilityIndex := some 1, stdDev := 1, classicFTP := 180,
           normalizedFTP := 180, intensityFactor := some 1 } : Stats).average =
          jsRound ([(189 : ℚ), 190].sum / ([(189 : ℚ), 190] : List ℚ).length)) :=
  ⟨by decide, by with_unfolding_all rfl,
    classicFTP_eq_round_of_exact_mean _ (by decide) _ (by with_unfolding_all rfl)⟩

/-- Claim C8: the static grade table has 13 rows, adjacent rows are
contiguous (each exclusive upper bound equals the next inclusive lower
bound), percentiles are strictly ascending, and the final row's upper
bound is unbounded. -/
theorem performance_grades_contiguous_ascending :
    gradeTableOk PERFORMANCE_GRADES = true ∧ PERFORMANCE_GRADES.length = 13 :=
  ⟨by with_unfolding_all rfl, by with_unfolding_all rfl⟩

/-- Claim C10: whenever the classic-FTP-per-kg ratio matches no row of the
grade table (e.g. it is negative because the rider weight is negative),
`calculateWattsPerKg` falls back to the *last* table row — grade `A+`,
category `World Class`, percentile 99 — not the lowest. -/
theorem calculateWattsPerKg_no_match_last_row (stats : Stats) (riderWeight : ℚ)
    (h : ∀ g ∈ PERFORMANCE_GRADES,
      gradeMatches ((stats.classicFTP : ℚ) / riderWeight) g = false) :
    (calculateWattsPerKg stats riderWeight).grade = "A+" ∧
      (calculateWattsPerKg stats riderWeight).category = "World Class" ∧
      (calculateWattsPerKg stats riderWeight).percentile = 99 := by
  have hfind :
      PERFORMANCE_GRADES.find? (gradeMatches ((stats.classicFTP : ℚ) / riderWeight)) = none :=
    List.find?_eq_none.mpr (fun x hx => by simp [h x hx])
  simp only [calculateWattsPerKg, hfind, Option.getD_none]
  exact ⟨rfl, rfl, rfl⟩

/-- Witness for C10: a rider weight of `-1` makes the ratio negative, so no
row matches and the fallback row is returned. -/
theorem calculateWattsPerKg_no_match_last_row_witness :
    (∀ g ∈ PERFORMANCE_GRADES,
        gradeMatches
          ((({ average := 190, normalized := 190, max := 400, min := 100,
               variabilityIndex := some 1, stdDev := 0, classicFTP := 190,
               normalizedFTP := 190, intensityFactor := some 1 } : Stats).classicFTP : ℚ) /
            (-1 : ℚ)) g = false) ∧
      ((calculateWattsPerKg
            { average := 190, normalized := 190, max := 400, min := 100,
              variabilityIndex := some 1, stdDev := 0, classicFTP := 190,
              normalizedFTP := 190, intensityFactor := some 1 } (-1)).grade = "A+" ∧
        (calculateWattsPerKg
            { average := 190, normalized := 190, max := 400, min := 100,
              variabilityIndex := some 1, stdDev := 0, classicFTP := 190,
              normalizedFTP := 190, intensityFactor := some 1 } (-1)).category = "World Class" ∧
        (calculateWattsPerKg
            { average := 190, normalized := 190, max := 400, min := 100,
              variabilityIndex := some 1, stdDev := 0, classicFTP := 190,
              normalizedFTP := 190, intensityFactor := some 1 } (-1)).percentile = 99) :=
  ⟨by with_unfolding_all decide,
    calculateWattsPerKg_no_match_last_row _ _ (by with_unfolding_all decide)⟩

/-- Claim C5: for every non-empty power series the pacing score lies in the
closed interval `[0, 100]` — the deductions only subtract from 100 and the
result is clamped below at 0, so even extreme fades stay in range. -/
theorem analyzePacing_score_bounds (p : List ℚ) (hp : p ≠ []) (r : PacingAnalysis)
    (hr : analyzePacing p = .ok r) : 0 ≤ r.score ∧ r.score ≤ 100 := by
  match p, hp with
  | x :: xs, _ =>
    simp only [analyzePacing, calculateStats, Except.ok.injEq] at hr
    rw [← hr]
    dsimp only
    constructor
    · exact le_max_left 0 _
    · apply max_le (by norm_num)
      split_ifs <;> norm_num

/-- Witness for C5 on a steady 4-sample effort (score exactly 100). -/
theorem analyzePacing_score_bounds_witness :
    ([100, 100, 100, 100] : List ℚ) ≠ [] ∧
      analyzePacing [100, 100, 100, 100] =
        .ok { score := 100, fadePct := 0, insights := [.success], avgFirstQuarter := 100,
              avgLastQuarter := 100, wattsLost := 0, strategy := "even" } ∧
      (0 ≤ (100 : ℚ) ∧ (100 : ℚ) ≤ 100) :=
  ⟨by decide, by with_unfolding_all rfl,
    analyzePacing_score_bounds [100, 100, 100, 100] (by decide)
      { score := 100, fadePct := 0, insights := [.success], avgFirstQuarter := 100,
        avgLastQuarter := 100, wattsLost := 0, strategy := "even" }
      (by with_unfolding_all rfl)⟩

/-- Claim C7: when the power series has exactly `targetMinutes × 60`
samples, `extractBestFTPSegment` returns every series unchanged with
`duration = length` and `startTime = 0` (the close-to-target branch). -/
theorem extractBestFTPSegment_exact_target (powerData : List ℚ)
    (heartRateData speedData distanceData elevationData : Option (List ℚ))
    (targetDurationMinutes : ℕ)
    (h : powerData.length = targetDurationMinutes * 60) :
    (extractBestFTPSegment powerData heartRateData targetDurationMinutes speedData
        distanceData elevationData).power = powerData ∧
      (extractBestFTPSegment powerData heartRateData targetDurationMinutes speedData
          distanceData elevationData).heartRate = heartRateData ∧
      (extractBestFTPSegment powerData heartRateData targetDurationMinutes speedData
          distanceData elevationData).speed = speedData ∧
      (extractBestFTPSegment powerData heartRateData targetDurationMinutes speedData
          distanceData elevationData).distance = distanceData ∧
      (extractBestFTPSegment powerData heartRateData targetDurationMinutes speedData
          distanceData elevationData).elevation = elevationData ∧
      (extractBestFTPSegment powerData heartRateData targetDurationMinutes speedData
          distanceData elevationData).segmentInfo.duration = powerData.length ∧
      (extractBestFTPSegment powerData heartRateData targetDurationMinutes speedData
          distanceData elevationData).segmentInfo.startTime = 0 := by
  have hz : (0 : ℚ) ≤ ((targetDurationMinutes * 60 : ℕ) : ℚ) := by positivity
  have hcond : (powerData.length : ℚ) ≤ ((targetDurationMinutes * 60 : ℕ) : ℚ) * 1.25 ∧
      (powerData.length : ℚ) ≥ ((targetDurationMinutes * 60 : ℕ) : ℚ) * 0.75 := by
    rw [h]
    constructor <;> nlinarith
  simp only [extractBestFTPSegment]
  rw [if_pos hcond]
  exact ⟨rfl, rfl, rfl, rfl, rfl, rfl, rfl⟩

/-- Witness for C7 at a 60-sample series with a 1-minute target. -/
theorem extractBestFTPSegment_exact_target_witness :
    (List.replicate 60 (200 : ℚ)).length = 1 * 60 ∧
      ((extractBestFTPSegment (List.replicate 60 (200 : ℚ)) none 1 none none none).power =
          List.replicate 60 (200 : ℚ) ∧
        (extractBestFTPSegment (List.replicate 60 (200 : ℚ)) none 1 none none none).heartRate =
          none ∧
        (extractBestFTPSegment (List.replicate 60 (200 : ℚ)) none 1 none none none).speed =
          none ∧
        (extractBestFTPSegment (List.replicate 60 (200 : ℚ)) none 1 none none none).distance =
          none ∧
        (extractBestFTPSegment (List.replicate 60 (200 : ℚ)) none 1 none none none).elevation =
          none ∧
        (extractBestFTPSegment (List.replicate 60 (200 : ℚ)) none 1 none none
              none).segmentInfo.duration = (List.replicate 60 (200 : ℚ)).length ∧
        (extractBestFTPSegment (List.replicate 60 (200 : ℚ)) none 1 none none
              none).segmentInfo.startTime = 0) :=
  ⟨by decide,
    extractBestFTPSegment_exact_target (List.replicate 60 (200 : ℚ)) none none none none 1
      (by decide)⟩

/-- Claim C4 (counterexample): with first-quarter average power 100 and
last-quarter average power 200 the power drop is −100 — it does *not*
exceed 1 watt — yet `cardiacDrift` is `0.2`, not `0`: the source gates on
`|powerDrop| > 1`, not on the signed drop. -/
theorem cardiacDrift_negative_drop_cex :
    (calculateHeartRateStats [100, 100, 110, 110, 110, 110, 120, 120]
        [100, 100, 150, 150, 150, 150, 200, 200]).cardiacDrift = 1/5 ∧
      avgOf (firstQuarterOf [100, 100, 150, 150, 150, 150, 200, 200]) -
          avgOf (lastQuarterOf [100, 100, 150, 150, 150, 150, 200, 200]) ≤ 1 ∧
      (1/5 : ℚ) ≠ 0 :=
  ⟨by with_unfolding_all rfl, by with_unfolding_all decide, by with_unfolding_all decide⟩

/-- Claim C4 (amended): `cardiacDrift` is the 2-decimal rounding of
`hrIncrease / |powerDrop|` whenever the first- and last-quarter average
powers differ by more than 1 watt *in either direction* (`|powerDrop| > 1`),
and `0` otherwise.  The pairing and positive-heart-rate hypotheses keep the
input inside the domain where the JavaScript quarter averages are finite. -/
theorem cardiacDrift_formula (heartRateData powerData : List ℚ)
    (hlen : heartRateData.length = powerData.length)
    (hfq : ∃ x ∈ firstQuarterOf heartRateData, 0 < x)
    (hlq : ∃ x ∈ lastQuarterOf heartRateData, 0 < x) :
    (calculateHeartRateStats heartRateData powerData).cardiacDrift =
      if 1 < |avgOf (firstQuarterOf powerData) - avgOf (lastQuarterOf powerData)| then
        toFixed2 ((avgOf ((lastQuarterOf heartRateData).filter (fun hr => 0 < hr)) -
            avgOf ((firstQuarterOf heartRateData).filter (fun hr => 0 < hr))) /
          |avgOf (firstQuarterOf powerData) - avgOf (lastQuarterOf powerData)|)
      else 0 := by
  simp only [calculateHeartRateStats, firstQuarterOf, lastQuarterOf, avgOf]
  by_cases hc :
      1 < |listSum (powerData.take (powerData.length / 4)) /
            (powerData.take (powerData.length / 4)).length -
          listSum (powerData.drop (powerData.length * 3 / 4)) /
            (powerData.drop (powerData.length * 3 / 4)).length|
  · rw [if_pos hc, if_pos hc]
  · rw [if_neg hc, if_neg hc]
    norm_num [toFixed2, jsRound]

/-- Witness for the amended C4 on a genuine positive power drop of 100
watts with a 20-bpm heart-rate rise (drift `0.2`). -/
theorem cardiacDrift_formula_witness :
    ([100, 100, 110, 110, 110, 110, 120, 120] : List ℚ).length =
        ([200, 200, 150, 150, 150, 150, 100, 100] : List ℚ).length ∧
      (∃ x ∈ firstQuarterOf [100, 100, 110, 110, 110, 110, 120, 120], 0 < x) ∧
      (∃ x ∈ lastQuarterOf [100, 100, 110, 110, 110, 110, 120, 120], 0 < x) ∧
      (calculateHeartRateStats [100, 100, 110, 110, 110, 110, 120, 120]
          [200, 200, 150, 150, 150, 150, 100, 100]).cardiacDrift =
        (if 1 < |avgOf (firstQuarterOf [200, 200, 150, 150, 150, 150, 100, 100]) -
              avgOf (lastQuarterOf [200, 200, 150, 150, 150, 150, 100, 100])| then
          toFixed2
            ((avgOf ((lastQuarterOf [100, 100, 110, 110, 110, 110, 120, 120]).filter
                  (fun hr => 0 < hr)) -
                avgOf ((firstQuarterOf [100, 100, 110, 110, 110, 110, 120, 120]).filter
                  (fun hr => 0 < hr))) /
              |avgOf (firstQuarterOf [200, 200, 150, 150, 150, 150, 100, 100]) -
                avgOf (lastQuarterOf [200, 200, 150, 150, 150, 150, 100, 100])|)
        else 0) :=
  ⟨by decide, by with_unfolding_all decide, by with_unfolding_all decide,
    cardiacDrift_formula [100, 100, 110, 110, 110, 110, 120, 120]
      [200, 200, 150, 150, 150, 150, 100, 100] (by decide)
      (by with_unfolding_all decide) (by with_unfolding_all decide)⟩

/-- Claim C1 (code evaluation at the failing input): the TrainingPeaks
variant returns a non-null `ParsedData` with an *empty* power series on an
input whose power column is found but no row parses to a valid power value,
while the generic `parseCSV` (which checks `power.length === 0`) returns
null on the analogous input. -/
theorem parseTrainingPeaksCSV_empty_power :
    parseTrainingPeaksCSV "Power (watts)\nabc" =
      some { power := [], heartRate := none, speed := none, distance := none,
             elevation := none, time := [] } ∧
      parseCSV "Power\nabc" = none :=
  ⟨by with_unfolding_all rfl, by with_unfolding_all rfl⟩

/-- Claim C3 (counterexample): on a CSV whose first data row has a negative
power value but a parseable time value, `parseCSV` succeeds with one power
sample and *two* time samples — the row is skipped for power only, so the
series lengths diverge. -/
theorem parseCSV_time_power_misaligned_cex :
    parseCSV "power,time\n-5,0\n100,1" =
      some { power := [100], heartRate := none, speed := none, distance := none,
             elevation := none, time := [0, 1] } ∧
      ([0, 1] : List ℚ).length ≠ ([100] : List ℤ).length :=
  ⟨by with_unfolding_all rfl, by decide⟩

/-- Claim C3 (amended): on every CSV input on which `parseCSV` succeeds and
in which every data row yields a valid (parseable, non-negative) power
value — and, when a time column exists, a parseable time value — the time
series has the same length as the power series, and the heart-rate series,
when present, also has the same length as the power series. -/
theorem parseCSV_series_lengths_align (csvContent : String) (r : ParsedData)
    (hr : parseCSV csvContent = some r)
    (hvalid : csvAllRowsValid csvContent = true) :
    r.time.length = r.power.length ∧
      ∀ hrs, r.heartRate = some hrs → hrs.length = r.power.length := by
  unfold csvAllRowsValid at hvalid
  have hall := List.all_eq_true.mp hvalid
  simp only [parseCSV] at hr
  by_cases h2 : (csvLines csvContent).length < 2
  · rw [if_pos h2] at hr
    exact absurd hr (by simp)
  · rw [if_neg h2] at hr
    match hpi : csvPowerIdx csvContent with
    | none =>
      rw [hpi] at hr
      exact absurd hr (by simp)
    | some pIdx =>
      rw [hpi] at hr
      dsimp only at hr
      have hpow : ∀ row ∈ csvRows csvContent, (powerOfRow row pIdx).isSome := by
        intro row hrow
        have h := hall row hrow
        rw [hpi, Bool.and_eq_true] at h
        exact h.1
      have hplen :
          ((csvRows csvContent).filterMap (fun values => powerOfRow values pIdx)).length =
            (csvRows csvContent).length :=
        length_filterMap_of_isSome _ _ hpow
      by_cases hzero :
          ((csvRows csvContent).filterMap (fun values => powerOfRow values pIdx)).length = 0
      · rw [if_pos hzero] at hr
        exact absurd hr (by simp)
      · rw [if_neg hzero] at hr
        rw [Option.some.injEq] at hr
        rw [← hr]
        constructor
        · -- time series length
          match hti : csvTimeIdx csvContent with
          | some tIdx =>
            dsimp only
            rw [hplen]
            apply length_filterMap_of_isSome
            intro row hrow
            have h := hall row hrow
            rw [hpi, hti, Bool.and_eq_true] at h
            exact h.2
          | none =>
            dsimp only
            rw [hplen, List.length_map, List.length_range]
        · -- heart-rate series length
          intro hrs hhrs
          match hhi : csvHRIdx csvContent with
          | some hIdx =>
            rw [hhi] at hhrs
            dsimp only at hhrs
            rw [Option.some.injEq] at hhrs
            rw [← hhrs]
            dsimp only
            rw [hplen, List.length_map]
          | none =>
            rw [hhi] at hhrs
            exact absurd hhrs (by simp)

/-- Witness for the amended C3 on a fully valid two-row CSV with power,
heart-rate and time columns. -/
theorem parseCSV_series_lengths_align_witness :
    parseCSV "power,hr,time\n100,90,0\n200,91,1" =
      some { power := [100, 200], heartRate := some [90, 91], speed := none,
             distance := none, elevation := none, time := [0, 1] } ∧
      csvAllRowsValid "power,hr,time\n100,90,0\n200,91,1" = true ∧
      ([0, 1] : List ℚ).length = ([100, 200] : List ℤ).length ∧
      ([90, 91] : List ℤ).length = ([100, 200] : List ℤ).length :=
  ⟨by with_unfolding_all rfl, by with_unfolding_all rfl, by
    have h := parseCSV_series_lengths_align "power,hr,time\n100,90,0\n200,91,1"
      { power := [100, 200], heartRate := some [90, 91], speed := none,
        distance := none, elevation := none, time := [0, 1] }
      (by with_unfolding_all rfl) (by with_unfolding_all rfl)
    exact ⟨h.1, h.2 [90, 91] rfl⟩⟩
